import Mathlib

/-!
Verification of the Topic binding in `src/topic.cc` (node-rdkafka).

The file shallowly embeds `Connection::Topic`:
its constructor (lines 32-45), the JS-facing factory `New` (lines 69-110),
the connection gate `toRdKafkaTopic` (lines 127-133), `Name` (135-137),
the config lookup `NodeGet` (147-172) and `NodeGetName` (174-178).

Behaviour of code outside this file (the librdkafka `Conf::get`,
`Connection::CreateTopic`, `Connection::IsConnected`, and the repository's
`Conf::create` from conf.cc, which is not part of the given source) is
modelled by oracle parameters: functions quantified over in the theorems,
so every theorem holds for all possible behaviours of those externals.
-/

/-- Opaque identifier of a native `RdKafka::Topic*`; `none` models NULL. -/
abbrev TopicHandle := Nat

/-- Opaque identifier of a wrapped `Connection` object (a non-owning pointer). -/
abbrev ConnId := Nat

/-- Opaque identifier of a v8 configuration object passed as `info[1]`. -/
abbrev JsObject := Nat

/-- RdKafka error codes appearing in topic.cc: `ERR_NO_ERROR`, the
`ERR__STATE` code used for the not-connected error (line 129), and all
other codes collapsed into `ERR_OTHER` with their integer value. -/
inductive KafkaErr
  | ERR_NO_ERROR
  | ERR__STATE
  | ERR_OTHER (code : Int)
  deriving DecidableEq, Repr

/-- Modelled from the spec: section 6 gives the inbound contract
`CreateTopic(name, config) -> (handle, errorCode)`.  `Baton` (declared in
common.h, not part of the given source) is that pair: an error code and a
possibly-NULL data pointer. -/
structure Baton where
  err : KafkaErr
  data : Option TopicHandle
  deriving DecidableEq, Repr

/-- Modelled from the spec: the error-carrying `Baton(err)` constructor used
at topic.cc line 129; it holds no data pointer. -/
def Baton.ofError (e : KafkaErr) : Baton := ⟨e, none⟩

/-- Modelled from the spec: the data-carrying `Baton(ptr)` constructor used
at topic.cc line 132; per section 6 the error component of a pure handle
result is `ERR_NO_ERROR`, and the pointer may be NULL. -/
def Baton.ofData (d : Option TopicHandle) : Baton := ⟨.ERR_NO_ERROR, d⟩

/-- Result of `RdKafka::Conf::get` (spec section 6):
ConfResult is OK (with the looked-up value), UNKNOWN or INVALID. -/
inductive ConfResult
  | CONF_OK (value : String)
  | CONF_UNKNOWN
  | CONF_INVALID
  deriving DecidableEq, Repr

/-- A native `RdKafka::Conf` object, abstracted by its observable lookup
behaviour `get : key -> ConfResult` (spec section 6). -/
structure Conf where
  get : String → ConfResult

/-- The mutable state of the connection world at the moment of a call:
each connection's readiness flag (read by `IsConnected`) and the behaviour
of its native `CreateTopic`.  Passing the world explicitly at each call
models that topic.cc re-reads connection state per call. -/
structure ConnWorld where
  isConnected : ConnId → Bool
  createTopic : ConnId → String → Conf → Baton

/-- A v8 value as far as topic.cc inspects one: a string, a config object,
a wrapped connection object, or anything else. -/
inductive JsValue
  | vstr (s : String)
  | vobj (o : JsObject)
  | vconn (c : ConnId)
  | vother

/-- `IsString` check (topic.cc line 78). -/
def JsValue.isString : JsValue → Bool
  | .vstr _ => true
  | _ => false

/-- `IsObject` check (topic.cc line 85); wrapped objects are objects too. -/
def JsValue.isObject : JsValue → Bool
  | .vobj _ => true
  | .vconn _ => true
  | _ => false

/-- The `ToString` coercion (`Nan::Utf8String`, topic.cc lines 82 and 154):
strings pass through, objects and everything else coerce to the usual
JavaScript renderings. -/
def JsValue.toStr : JsValue → String
  | .vstr s => s
  | .vobj _ => "[object Object]"
  | .vconn _ => "[object Object]"
  | .vother => "undefined"

/-- `ToObject` on a value already checked with `IsObject` (topic.cc line 92). -/
def JsValue.toObj : JsValue → JsObject
  | .vobj o => o
  | _ => 0

/-- `ObjectWrap::Unwrap<Connection>` on `info[2]` (topic.cc line 98); the
code performs no type check here, so a non-connection value unwraps to an
arbitrary id. -/
def JsValue.unwrapConn : JsValue → ConnId
  | .vconn c => c
  | _ => 0

/-- The `Connection::Topic` object: native topic pointer (possibly NULL),
stored name, owned config, and non-owning pointer to the connection
(topic.cc fields m_topic, m_topic_name, m_config, m_handle). -/
structure Topic where
  m_topic : Option TopicHandle
  m_topic_name : String
  m_config : Conf
  m_handle : Option ConnId

/-- The C++ constructor `Topic::Topic` (topic.cc lines 32-45): fields are
initialised, `handle->CreateTopic` is called, and its result pointer is
stored only when the error code is `ERR_NO_ERROR`; otherwise `m_topic`
stays NULL and the error is not propagated anywhere. -/
def Topic.construct (w : ConnWorld) (topic_name : String) (config : Conf)
    (handle : ConnId) : Topic :=
  { m_topic :=
      if (w.createTopic handle topic_name config).err = .ERR_NO_ERROR then
        (w.createTopic handle topic_name config).data
      else none
    m_topic_name := topic_name
    m_config := config
    m_handle := some handle }

/-- `Connection::Topic::New` (topic.cc lines 69-110): the JS-facing factory.
Checks construct-call, arity, string name, object config; creates the
native config through `Conf::create` (conf.cc, outside the given source,
abstracted as the `confCreate` oracle which either yields a `Conf` or an
error string); unwraps the connection unchecked; then runs the C++
constructor and returns the wrapped instance.  A thrown JS error is the
`.error` branch. -/
def Topic.New (w : ConnWorld) (confCreate : JsObject → Except String Conf)
    (isConstructCall : Bool) (info : List JsValue) : Except String Topic :=
  if !isConstructCall then
    .error "non-constructor invocation not supported"
  else if info.length < 3 then
    .error "Handle, topic name and configuration required"
  else if !(info.getD 0 .vother).isString then
    .error "Topic name must be a string"
  else if !(info.getD 1 .vother).isObject then
    .error "Configuration data must be specified"
  else
    match confCreate (info.getD 1 .vother).toObj with
    | .error errstr => .error errstr
    | .ok config =>
      .ok (Topic.construct w (info.getD 0 .vother).toStr config
        (info.getD 2 .vother).unwrapConn)

/-- `Connection::Topic::toRdKafkaTopic` (topic.cc lines 127-133): fails with
`ERR__STATE` when the connection pointer is NULL or the connection is not
established at the moment of the call; otherwise returns a baton wrapping
`m_topic` (which is never itself checked). -/
def Topic.toRdKafkaTopic (w : ConnWorld) (t : Topic) : Baton :=
  match t.m_handle with
  | none => Baton.ofError .ERR__STATE
  | some c =>
    if !(w.isConnected c) then Baton.ofError .ERR__STATE
    else Baton.ofData t.m_topic

/-- `Connection::Topic::Name` (topic.cc lines 135-137). -/
def Topic.Name (t : Topic) : String := t.m_topic_name

/-- `Connection::Topic::NodeGet` (topic.cc lines 147-172) as a state-passing
function: the outcome (a thrown error, the JS `undefined`, or a string
value) together with the Topic state after the call.  The body throws when
no argument is supplied, otherwise coerces `info[0]` to a key and switches
on `m_config->get`: UNKNOWN yields `undefined` (`.ok none`), INVALID
throws, OK yields the value.  No branch writes to any field. -/
def Topic.NodeGet (t : Topic) (info : List JsValue) :
    Except String (Option String) × Topic :=
  if info.length < 1 then
    (.error "Must provide a config key to lookup.", t)
  else
    match t.m_config.get (info.getD 0 .vother).toStr with
    | .CONF_UNKNOWN => (.ok none, t)
    | .CONF_INVALID => (.error "Topic configuration retroactively invalid...", t)
    | .CONF_OK value => (.ok (some value), t)

/-- `Connection::Topic::NodeGetName` (topic.cc lines 174-178). -/
def Topic.NodeGetName (t : Topic) : String := t.Name

/-! Concrete oracles and objects used by witnesses and counterexamples. -/

/-- A config whose only known key is "acks", with value "1". -/
def confAcks1 : Conf := ⟨fun k => if k = "acks" then .CONF_OK "1" else .CONF_UNKNOWN⟩

/-- A config whose only known key is "acks", with value "all". -/
def confAcksAll : Conf := ⟨fun k => if k = "acks" then .CONF_OK "all" else .CONF_UNKNOWN⟩

/-- A config that has become invalid: every lookup reports CONF_INVALID. -/
def confBroken : Conf := ⟨fun _ => .CONF_INVALID⟩

/-- A `Conf::create` oracle: object 1 yields the "acks"="all" config, any
other object yields the "acks"="1" config. -/
def ccOrders : JsObject → Except String Conf :=
  fun o => if o = 1 then .ok confAcksAll else .ok confAcks1

/-- A `Conf::create` oracle that always rejects the supplied object. -/
def ccFail : JsObject → Except String Conf :=
  fun _ => .error "Invalid config value"

/-- A world where every connection is established and native topic creation
succeeds with handle 7. -/
def wGood : ConnWorld := ⟨fun _ => true, fun _ _ _ => Baton.ofData (some 7)⟩

/-- A world where no connection is established; native creation would
succeed. -/
def wDisc : ConnWorld := ⟨fun _ => false, fun _ _ _ => Baton.ofData (some 7)⟩

/-- A world where connections are established but native topic creation
always fails with an RdKafka error code. -/
def wBadCreate : ConnWorld :=
  ⟨fun _ => true, fun _ _ _ => Baton.ofError (.ERR_OTHER (-1))⟩

/-- A `Conf::create` oracle that always yields the invalid-state config. -/
def ccBroken : JsObject → Except String Conf :=
  fun _ => .ok confBroken

/-- A `Conf::create` oracle rejecting object 0 and accepting any other. -/
def ccMixed : JsObject → Except String Conf :=
  fun o => if o = 0 then .error "Invalid config value" else .ok confAcks1

/-- A concrete topic named "orders" built in the all-good world. -/
def topicOrders : Topic := Topic.construct wGood "orders" confAcks1 0

/-- A concrete topic whose configuration has become invalid. -/
def topicBroken : Topic := Topic.construct wGood "orders" confBroken 0

/-! Theorems. -/

/-- C1: a config lookup `get(key)` on a Topic has exactly three observably
distinct outcomes, determined by the native config's classification of the
key: unknown keys yield the absent sentinel `undefined` (`.ok none`), not
an error; a key that is invalid in the current library state throws a hard
error; a known valid key yields its string value.  The three outcomes are
pairwise distinct, so absent and error are never conflated. -/
theorem C1_nodeGet_three_way (t : Topic) (key : String) :
    Topic.NodeGet t [JsValue.vstr key] =
      ((match t.m_config.get key with
        | .CONF_UNKNOWN => Except.ok none
        | .CONF_INVALID =>
            Except.error "Topic configuration retroactively invalid..."
        | .CONF_OK v => Except.ok (some v)), t) ∧
    (∀ v m : String,
      (Except.ok none : Except String (Option String)) ≠ Except.error m ∧
      (Except.ok (some v) : Except String (Option String)) ≠ Except.error m ∧
      (Except.ok none : Except String (Option String)) ≠ Except.ok (some v)) := by
  constructor
  · cases h : t.m_config.get key <;>
      simp [Topic.NodeGet, JsValue.toStr, h]
  · intro v m
    refine ⟨by simp, by simp, by simp⟩

/-- Witness for C1: looking up the never-set key "missing" on the concrete
"orders" topic returns the absent sentinel, not an error. -/
theorem C1_witness :
    Topic.NodeGet topicOrders [JsValue.vstr "missing"] =
      (Except.ok none, topicOrders) :=
  ((C1_nodeGet_three_way topicOrders "missing").1).trans rfl

/-- C2: `toRdKafkaTopic` fails with the `ERR__STATE` (NotConnected) baton
exactly when the owning connection pointer is NULL or the connection is not
established in the world at the moment of the call; and since the readiness
flag is read from the call-time world, a topic constructed in any earlier
world fails as soon as the current world reports its connection down. -/
theorem C2_connection_gate (w : ConnWorld) (t : Topic) :
    (Topic.toRdKafkaTopic w t = Baton.ofError KafkaErr.ERR__STATE ↔
      t.m_handle = none ∨
        ∃ c, t.m_handle = some c ∧ w.isConnected c = false) ∧
    (∀ (w₀ : ConnWorld) (name : String) (conf : Conf) (c : ConnId),
      w.isConnected c = false →
      Topic.toRdKafkaTopic w (Topic.construct w₀ name conf c) =
        Baton.ofError KafkaErr.ERR__STATE) := by
  constructor
  · cases h : t.m_handle with
    | none => simp [Topic.toRdKafkaTopic, h]
    | some c =>
      by_cases hc : w.isConnected c <;>
        simp [Topic.toRdKafkaTopic, h, hc, Baton.ofData, Baton.ofError]
  · intro w₀ name conf c hc
    simp [Topic.toRdKafkaTopic, Topic.construct, hc]

/-- Witness for C2: the concrete "orders" topic was constructed in the
all-connected world, yet the very next call in the all-disconnected world
fails with the NotConnected baton. -/
theorem C2_witness :
    Topic.toRdKafkaTopic wDisc topicOrders =
      Baton.ofError KafkaErr.ERR__STATE :=
  (C2_connection_gate wDisc topicOrders).2 wGood "orders" confAcks1 0 rfl

/-- C3 counterexample: in a world where the native `CreateTopic` fails, the
factory still returns the wrapped Topic successfully — the creation error
reaches no caller; the only trace is the NULL `m_topic`.  This refutes the
claim that a CreateTopic failure during construction is reported to the
creator. -/
theorem C3_cex :
    (Topic.New wBadCreate ccOrders true
        [JsValue.vstr "orders", JsValue.vobj 0, JsValue.vconn 0]).map
        Topic.m_topic = Except.ok none ∧
    (wBadCreate.createTopic 0 "orders" confAcks1).err ≠
      KafkaErr.ERR_NO_ERROR := by
  exact ⟨rfl, by decide⟩

/-- C3 amended: errors in config lookup and in handle retrieval are surfaced
synchronously to the immediate caller, but a failure of the native
CreateTopic during Topic construction is silently discarded: `New` still
returns the Topic, whose `m_topic` is NULL, and no error is raised. -/
theorem C3_amended_propagation (w w' : ConnWorld)
    (cc : JsObject → Except String Conf) (name key : String) (o : JsObject)
    (c : ConnId) (conf : Conf)
    (hconf : cc o = .ok conf)
    (hfail : (w.createTopic c name conf).err ≠ KafkaErr.ERR_NO_ERROR)
    (hinv : conf.get key = ConfResult.CONF_INVALID)
    (hdisc : w'.isConnected c = false) :
    Topic.New w cc true [JsValue.vstr name, JsValue.vobj o, JsValue.vconn c] =
      Except.ok (Topic.construct w name conf c) ∧
    (Topic.construct w name conf c).m_topic = none ∧
    (Topic.NodeGet (Topic.construct w name conf c) [JsValue.vstr key]).1 =
      Except.error "Topic configuration retroactively invalid..." ∧
    Topic.toRdKafkaTopic w' (Topic.construct w name conf c) =
      Baton.ofError KafkaErr.ERR__STATE := by
  refine ⟨?_, ?_, ?_, ?_⟩
  · simp [Topic.New, hconf, JsValue.isString, JsValue.isObject,
      JsValue.toStr, JsValue.toObj, JsValue.unwrapConn]
  · simp [Topic.construct, hfail]
  · simp [Topic.NodeGet, Topic.construct, JsValue.toStr, hinv]
  · simp [Topic.toRdKafkaTopic, Topic.construct, hdisc]

/-- Witness for C3's amended theorem: a concrete world with failing native
creation, an invalid config and a disconnected call-time world. -/
theorem C3_amended_witness :
    Topic.New wBadCreate ccBroken true
        [JsValue.vstr "orders", JsValue.vobj 0, JsValue.vconn 0] =
      Except.ok (Topic.construct wBadCreate "orders" confBroken 0) ∧
    (Topic.construct wBadCreate "orders" confBroken 0).m_topic = none ∧
    (Topic.NodeGet (Topic.construct wBadCreate "orders" confBroken 0)
        [JsValue.vstr "acks"]).1 =
      Except.error "Topic configuration retroactively invalid..." ∧
    Topic.toRdKafkaTopic wDisc (Topic.construct wBadCreate "orders" confBroken 0) =
      Baton.ofError KafkaErr.ERR__STATE :=
  C3_amended_propagation wBadCreate wDisc ccBroken "orders" "acks" 0 0
    confBroken rfl (by decide) rfl rfl

/-- C4 counterexample: an empty topic name together with a well-formed
config is accepted — `New` succeeds and the resulting Topic carries the
empty name, refuting the claim that an empty name is rejected at creation
time. -/
theorem C4_cex :
    Topic.New wGood ccOrders true
        [JsValue.vstr "", JsValue.vobj 0, JsValue.vconn 0] =
      Except.ok (Topic.construct wGood "" confAcks1 0) ∧
    (Topic.construct wGood "" confAcks1 0).Name = "" := by
  exact ⟨rfl, rfl⟩

/-- C4 amended: creation fails with the creator's error string whenever the
supplied configuration is malformed (Conf::create rejects it), but an
empty topic name is not validated: creation with an empty name and a
well-formed config succeeds. -/
theorem C4_amended_validation (w : ConnWorld)
    (cc : JsObject → Except String Conf) (name : String) (o o' : JsObject)
    (c : ConnId) (errstr : String) (conf : Conf)
    (hbad : cc o = .error errstr)
    (hok : cc o' = .ok conf) :
    Topic.New w cc true [JsValue.vstr name, JsValue.vobj o, JsValue.vconn c] =
      Except.error errstr ∧
    Topic.New w cc true [JsValue.vstr "", JsValue.vobj o', JsValue.vconn c] =
      Except.ok (Topic.construct w "" conf c) := by
  constructor
  · simp [Topic.New, hbad, JsValue.isString, JsValue.isObject, JsValue.toObj]
  · simp [Topic.New, hok, JsValue.isString, JsValue.isObject,
      JsValue.toStr, JsValue.toObj, JsValue.unwrapConn]

/-- Witness for C4's amended theorem: the mixed oracle rejects object 0 and
accepts object 1; the empty-name creation succeeds. -/
theorem C4_amended_witness :
    Topic.New wGood ccMixed true
        [JsValue.vstr "orders", JsValue.vobj 0, JsValue.vconn 0] =
      Except.error "Invalid config value" ∧
    Topic.New wGood ccMixed true
        [JsValue.vstr "", JsValue.vobj 1, JsValue.vconn 0] =
      Except.ok (Topic.construct wGood "" confAcks1 0) :=
  C4_amended_validation wGood ccMixed "orders" 0 1 0 "Invalid config value"
    confAcks1 rfl rfl

/-- C5: for every valid triple of name, config object accepted by
Conf::create, and connected connection, `New` succeeds and the resulting
Topic's `Name` is exactly the input name.  `Name` (and `NodeGetName`) read
only the stored `m_topic_name` and take no connection-state argument, so
the name is returned identically whatever the connection state is at call
time. -/
theorem C5_create_name (w : ConnWorld) (cc : JsObject → Except String Conf)
    (name : String) (o : JsObject) (c : ConnId) (conf : Conf)
    (hconf : cc o = .ok conf)
    (hconn : w.isConnected c = true) :
    Topic.New w cc true [JsValue.vstr name, JsValue.vobj o, JsValue.vconn c] =
      Except.ok (Topic.construct w name conf c) ∧
    (Topic.construct w name conf c).Name = name ∧
    Topic.NodeGetName (Topic.construct w name conf c) = name := by
  refine ⟨?_, rfl, rfl⟩
  simp [Topic.New, hconf, JsValue.isString, JsValue.isObject,
    JsValue.toStr, JsValue.toObj, JsValue.unwrapConn]

/-- Witness for C5: the "orders" topic is created in the connected world and
its name is "orders". -/
theorem C5_witness :
    Topic.New wGood ccOrders true
        [JsValue.vstr "orders", JsValue.vobj 0, JsValue.vconn 0] =
      Except.ok topicOrders ∧
    topicOrders.Name = "orders" ∧
    Topic.NodeGetName topicOrders = "orders" :=
  C5_create_name wGood ccOrders "orders" 0 0 confAcks1 rfl rfl

/-- C6 counterexample: two creation requests with the same name "orders" on
the same connection 0 but different config objects both succeed, producing
two coexisting Topic instances whose configurations diverge on "acks"
("1" versus "all"); no conflict error is raised and no handle is shared,
refuting the registry claim. -/
theorem C6_cex :
    Topic.New wGood ccOrders true
        [JsValue.vstr "orders", JsValue.vobj 0, JsValue.vconn 0] =
      Except.ok (Topic.construct wGood "orders" confAcks1 0) ∧
    Topic.New wGood ccOrders true
        [JsValue.vstr "orders", JsValue.vobj 1, JsValue.vconn 0] =
      Except.ok (Topic.construct wGood "orders" confAcksAll 0) ∧
    (Topic.construct wGood "orders" confAcks1 0).m_config.get "acks" =
      ConfResult.CONF_OK "1" ∧
    (Topic.construct wGood "orders" confAcksAll 0).m_config.get "acks" =
      ConfResult.CONF_OK "all" ∧
    ConfResult.CONF_OK "1" ≠ ConfResult.CONF_OK "all" := by
  exact ⟨rfl, rfl, rfl, rfl, by decide⟩

/-- C6 amended: there is no registry — every creation request constructs a
fresh Topic instance carrying exactly the configuration produced for that
request, so duplicate (connection, name) requests yield coexisting
instances whose configurations may silently diverge, and no conflict error
is ever raised for a duplicate. -/
theorem C6_amended_fresh (w : ConnWorld) (cc : JsObject → Except String Conf)
    (name : String) (o o' : JsObject) (c : ConnId) (conf conf' : Conf)
    (h : cc o = .ok conf)
    (h' : cc o' = .ok conf') :
    Topic.New w cc true [JsValue.vstr name, JsValue.vobj o, JsValue.vconn c] =
      Except.ok (Topic.construct w name conf c) ∧
    Topic.New w cc true [JsValue.vstr name, JsValue.vobj o', JsValue.vconn c] =
      Except.ok (Topic.construct w name conf' c) ∧
    (Topic.construct w name conf c).m_config = conf ∧
    (Topic.construct w name conf' c).m_config = conf' := by
  refine ⟨?_, ?_, rfl, rfl⟩ <;>
    simp [Topic.New, h, h', JsValue.isString, JsValue.isObject,
      JsValue.toStr, JsValue.toObj, JsValue.unwrapConn]

/-- Witness for C6's amended theorem at the concrete duplicate request. -/
theorem C6_amended_witness :
    Topic.New wGood ccOrders true
        [JsValue.vstr "orders", JsValue.vobj 0, JsValue.vconn 0] =
      Except.ok (Topic.construct wGood "orders" confAcks1 0) ∧
    Topic.New wGood ccOrders true
        [JsValue.vstr "orders", JsValue.vobj 1, JsValue.vconn 0] =
      Except.ok (Topic.construct wGood "orders" confAcksAll 0) ∧
    (Topic.construct wGood "orders" confAcks1 0).m_config = confAcks1 ∧
    (Topic.construct wGood "orders" confAcksAll 0).m_config = confAcksAll :=
  C6_amended_fresh wGood ccOrders "orders" 0 1 0 confAcks1 confAcksAll rfl rfl

/-- C7: every config lookup leaves the Topic — in particular its stored
configuration — unchanged: `NodeGet`'s after-state equals its before-state
on every branch (missing key, unknown key, invalid config, found value),
so lookups read on demand and never mutate the native config. -/
theorem C7_lookup_frame (t : Topic) (info : List JsValue) :
    (Topic.NodeGet t info).2 = t ∧
    ((Topic.NodeGet t info).2).m_config = t.m_config := by
  have h : (Topic.NodeGet t info).2 = t := by
    unfold Topic.NodeGet
    split
    · rfl
    · split <;> rfl
  exact ⟨h, by rw [h]⟩

/-- C8: when the native CreateTopic fails during construction, the Topic is
nonetheless fully constructed with a NULL `m_topic`; a later
`toRdKafkaTopic` on a connected connection returns the success baton
(error code `ERR_NO_ERROR`) wrapping that NULL handle — the connection
check is the only guard and the NULL handle is never checked. -/
theorem C8_null_handle_success (w₀ w : ConnWorld) (name : String)
    (conf : Conf) (c : ConnId)
    (hfail : (w₀.createTopic c name conf).err ≠ KafkaErr.ERR_NO_ERROR)
    (hconn : w.isConnected c = true) :
    (Topic.construct w₀ name conf c).m_topic = none ∧
    Topic.toRdKafkaTopic w (Topic.construct w₀ name conf c) =
      Baton.ofData none ∧
    (Baton.ofData none).err = KafkaErr.ERR_NO_ERROR := by
  refine ⟨by simp [Topic.construct, hfail], ?_, rfl⟩
  simp [Topic.toRdKafkaTopic, Topic.construct, hconn, hfail]

/-- Witness for C8: creation fails in `wBadCreate`, yet the handle call in
the connected world returns the success baton wrapping NULL. -/
theorem C8_witness :
    (Topic.construct wBadCreate "orders" confAcks1 0).m_topic = none ∧
    Topic.toRdKafkaTopic wGood (Topic.construct wBadCreate "orders" confAcks1 0) =
      Baton.ofData none ∧
    (Baton.ofData none).err = KafkaErr.ERR_NO_ERROR :=
  C8_null_handle_success wBadCreate wGood "orders" confAcks1 0 (by decide) rfl

/-- C9: calling `get` with no argument throws the "Must provide a config
key to lookup." error and leaves the Topic unchanged; and the absent
sentinel (`.ok none`) is only ever returned when at least one argument was
supplied. -/
theorem C9_missing_key (t : Topic) :
    Topic.NodeGet t [] =
      (Except.error "Must provide a config key to lookup.", t) ∧
    (∀ info : List JsValue,
      (Topic.NodeGet t info).1 = Except.ok none → 1 ≤ info.length) := by
  constructor
  · rfl
  · intro info h
    by_cases hl : info.length < 1
    · rw [Topic.NodeGet, if_pos hl] at h
      exact absurd h (by simp)
    · omega

/-- Witness for C9: the no-argument call on the concrete topic throws and
returns the topic unchanged. -/
theorem C9_witness :
    Topic.NodeGet topicOrders [] =
      (Except.error "Must provide a config key to lookup.", topicOrders) :=
  (C9_missing_key topicOrders).1

/-- C10: `New` validates before constructing: a non-constructor invocation,
fewer than three arguments, a non-string name, a non-object config, and a
config rejected by Conf::create each produce exactly the corresponding
immediate error; in each case the result is the `.error` branch, which
carries no Topic, so no Topic object is constructed on failure. -/
theorem C10_new_validation (w : ConnWorld)
    (cc : JsObject → Except String Conf) (info : List JsValue) :
    (Topic.New w cc false info =
      Except.error "non-constructor invocation not supported") ∧
    (info.length < 3 →
      Topic.New w cc true info =
        Except.error "Handle, topic name and configuration required") ∧
    (¬ info.length < 3 → (info.getD 0 .vother).isString = false →
      Topic.New w cc true info = Except.error "Topic name must be a string") ∧
    (¬ info.length < 3 → (info.getD 0 .vother).isString = true →
      (info.getD 1 .vother).isObject = false →
      Topic.New w cc true info =
        Except.error "Configuration data must be specified") ∧
    (∀ errstr : String, ¬ info.length < 3 →
      (info.getD 0 .vother).isString = true →
      (info.getD 1 .vother).isObject = true →
      cc (info.getD 1 .vother).toObj = Except.error errstr →
      Topic.New w cc true info = Except.error errstr) := by
  refine ⟨rfl, ?_, ?_, ?_, ?_⟩
  · intro hl
    simp [Topic.New, hl]
  · intro hl hs
    simp only [List.getD, List.get?_eq_getElem?] at hs
    simp [Topic.New, hl, hs]
  · intro hl hs ho
    simp only [List.getD, List.get?_eq_getElem?] at hs ho
    simp [Topic.New, hl, hs, ho]
  · intro errstr hl hs ho hcc
    simp only [List.getD, List.get?_eq_getElem?] at hs ho hcc
    simp [Topic.New, hl, hs, ho, hcc]

/-- Witness for C10: with three well-typed arguments and a rejecting
Conf::create oracle, `New` surfaces the oracle's error string. -/
theorem C10_witness :
    Topic.New wGood ccFail true
        [JsValue.vstr "orders", JsValue.vobj 0, JsValue.vconn 0] =
      Except.error "Invalid config value" :=
  (C10_new_validation wGood ccFail
      [JsValue.vstr "orders", JsValue.vobj 0, JsValue.vconn 0]).2.2.2.2
    "Invalid config value" (by decide) rfl rfl rfl
